import Mathlib

/-!
Verification development for the VRChat event form autofill tool.

The program drives a Google Form through a Selenium session.  This file
shallowly embeds the pure decision logic of the program:

* `normalize_date_for_html` (src/form_utils.py:71-120, duplicated verbatim in
  src/autofill.py:206-238): date-string normalization to `YYYY-MM-DD`.
* `retry_func` (src/form_utils.py:49-68): the bounded retry wrapper.
* `run_impl` (src/autofill.py:60-396): the session-loss recovery loop.
* `check_multiple_checkboxes_by_labels` (src/form_utils.py:273-298):
  multi-select checkbox reconciliation.
* `ensure_reply_email_checkbox_on` (src/form_utils.py:125-152) and the inline
  reply-email drive in `_run_impl` (src/autofill.py:163-196).

Python `datetime` values are modelled at day granularity by their proleptic
Gregorian ordinal (`datetime.toordinal()`, `0001-01-01` is ordinal 1): all
date arithmetic the program performs (`weekday()`, `+ timedelta(days=n)`,
`strftime("%Y-%m-%d")`) factors through the ordinal.  The wall-clock read
`datetime.today()` becomes an explicit `today : Nat` argument holding the
ordinal of the date the clock would return.
-/

/-! ## Characters, digits and Python `str.strip` -/

/-- The decimal digit character for `n % 10` (ASCII `'0'` + digit). -/
def digitChar (n : Nat) : Char := Char.ofNat (48 + n % 10)

/-- Numeric value of a decimal digit character (inverse of `digitChar`). -/
def digitVal (c : Char) : Nat := c.toNat - 48

/-- ASCII whitespace recognized by Python `str.strip()` (the inputs at issue
only ever carry these, if any). -/
def isPySpace (c : Char) : Bool :=
  c == ' ' || c == '\t' || c == '\n' || c == '\x0d' || c == '\x0b' || c == '\x0c'

/-- Python `value.strip()`: remove leading and trailing whitespace. -/
def pyStrip (s : String) : String :=
  ⟨((s.data.dropWhile isPySpace).reverse.dropWhile isPySpace).reverse⟩

/-! ## Calendar arithmetic -/

/-- Leap-year rule of the proleptic Gregorian calendar (Python
`calendar.isleap`, as used by `datetime`'s validation). -/
def isLeapYear (y : Nat) : Bool :=
  y % 4 == 0 && (y % 100 != 0 || y % 400 == 0)

/-- Number of days of month `m` of year `y` (`datetime`'s validation table). -/
def days_in_month (y m : Nat) : Nat :=
  if m == 2 then (if isLeapYear y then 29 else 28)
  else if m == 4 || m == 6 || m == 9 || m == 11 then 30
  else 31

/-- A month/day pair that `datetime.datetime` accepts for year `y`. -/
def validDate (y m d : Nat) : Prop :=
  1 ≤ m ∧ m ≤ 12 ∧ 1 ≤ d ∧ d ≤ days_in_month y m

instance (y m d : Nat) : Decidable (validDate y m d) := by
  unfold validDate; infer_instance

/-- Convert a Python date ordinal (`datetime.toordinal()`, `0001-01-01 = 1`)
to the civil triple `(year, month, day)`.  This is the standard
era/day-of-era civil-from-days computation used to model
`datetime.strftime`'s field extraction; `ord + 305` re-bases the ordinal to
the `0000-03-01` epoch of that computation. -/
def civil_from_ordinal (ord : Nat) : Nat × Nat × Nat :=
  let z := ord + 305
  let era := z / 146097
  let doe := z % 146097
  let yoe := (doe - doe / 1460 + doe / 36524 - doe / 146096) / 365
  let y := yoe + era * 400
  let doy := doe - (365 * yoe + yoe / 4 - yoe / 100)
  let mp := (5 * doy + 2) / 153
  let d := doy - (153 * mp + 2) / 5 + 1
  let m := if mp < 10 then mp + 3 else mp - 9
  (if m ≤ 2 then y + 1 else y, m, d)

/-- Python `datetime.weekday()`: Monday = 0 … Sunday = 6.  `0001-01-01` (ordinal 1)
was a Monday, hence the shift by 6. -/
def pythonWeekday (ord : Nat) : Nat := (ord + 6) % 7

/-! ## Rendering and parsing of the three accepted date formats -/

/-- Two-digit zero-padded rendering (`strftime` `%m` / `%d`). -/
def pad2 (n : Nat) : List Char := [digitChar (n / 10), digitChar n]

/-- Four-digit zero-padded rendering (`strftime` `%Y`; the tool targets
Windows, whose CRT zero-pads `%Y` to four digits). -/
def pad4 (n : Nat) : List Char :=
  [digitChar (n / 1000), digitChar (n / 100), digitChar (n / 10), digitChar n]

/-- Rendering `strftime("%Y-%m-%d")` of a civil triple. -/
def renderDate (y m d : Nat) : String :=
  ⟨pad4 y ++ '-' :: (pad2 m ++ '-' :: pad2 d)⟩

/-- The compact `YYYYMMDD` rendering of a civil triple. -/
def renderCompact (y m d : Nat) : String :=
  ⟨pad4 y ++ (pad2 m ++ pad2 d)⟩

/-- The slash-delimited `YYYY/MM/DD` rendering of a civil triple. -/
def renderSlash (y m d : Nat) : String :=
  ⟨pad4 y ++ '/' :: (pad2 m ++ '/' :: pad2 d)⟩

/-- Rendering `strftime("%Y-%m-%d")` of a Python date ordinal. -/
def strftime_Y_m_d (ord : Nat) : String :=
  let c := civil_from_ordinal ord
  renderDate c.1 c.2.1 c.2.2

/-- The calendar validation `datetime.datetime` performs when `strptime`
builds its result: years `1..9999`, months `1..12`, days within the month.
Returns the triple when valid, `none` (a `ValueError`) otherwise. -/
def mkValidDate (y m d : Nat) : Option (Nat × Nat × Nat) :=
  if 1 ≤ y ∧ y ≤ 9999 ∧ validDate y m d then some (y, m, d) else none

/-- Python `datetime.strptime(s, "%Y%m%d")` on zero-padded input: exactly eight
digits `YYYYMMDD`, then calendar validation. -/
def strptime_Ymd_compact (s : String) : Option (Nat × Nat × Nat) :=
  match s.data with
  | [y1, y2, y3, y4, m1, m2, d1, d2] =>
      if y1.isDigit && y2.isDigit && y3.isDigit && y4.isDigit &&
         m1.isDigit && m2.isDigit && d1.isDigit && d2.isDigit then
        mkValidDate
          (digitVal y1 * 1000 + digitVal y2 * 100 + digitVal y3 * 10 + digitVal y4)
          (digitVal m1 * 10 + digitVal m2)
          (digitVal d1 * 10 + digitVal d2)
      else none
  | _ => none

/-- Python `datetime.strptime(s, "%Y/%m/%d")` on zero-padded input. -/
def strptime_Ymd_slash (s : String) : Option (Nat × Nat × Nat) :=
  match s.data with
  | [y1, y2, y3, y4, s1, m1, m2, s2, d1, d2] =>
      if s1 == '/' && s2 == '/' &&
         y1.isDigit && y2.isDigit && y3.isDigit && y4.isDigit &&
         m1.isDigit && m2.isDigit && d1.isDigit && d2.isDigit then
        mkValidDate
          (digitVal y1 * 1000 + digitVal y2 * 100 + digitVal y3 * 10 + digitVal y4)
          (digitVal m1 * 10 + digitVal m2)
          (digitVal d1 * 10 + digitVal d2)
      else none
  | _ => none

/-- Python `datetime.strptime(s, "%Y-%m-%d")` on zero-padded input. -/
def strptime_Ymd_dash (s : String) : Option (Nat × Nat × Nat) :=
  match s.data with
  | [y1, y2, y3, y4, s1, m1, m2, s2, d1, d2] =>
      if s1 == '-' && s2 == '-' &&
         y1.isDigit && y2.isDigit && y3.isDigit && y4.isDigit &&
         m1.isDigit && m2.isDigit && d1.isDigit && d2.isDigit then
        mkValidDate
          (digitVal y1 * 1000 + digitVal y2 * 100 + digitVal y3 * 10 + digitVal y4)
          (digitVal m1 * 10 + digitVal m2)
          (digitVal d1 * 10 + digitVal d2)
      else none
  | _ => none

/-! ## `normalize_date_for_html` (src/form_utils.py:71-120) -/

/-- The entries of the `weekday_map` dict of `normalize_date_for_html`:
Japanese weekday names (with and without the `日` suffix) to
`datetime.weekday()` numbers. -/
def weekday_entries : List (String × Nat) :=
  [("月曜", 0), ("月曜日", 0),
   ("火曜", 1), ("火曜日", 1),
   ("水曜", 2), ("水曜日", 2),
   ("木曜", 3), ("木曜日", 3),
   ("金曜", 4), ("金曜日", 4),
   ("土曜", 5), ("土曜日", 5),
   ("日曜", 6), ("日曜日", 6)]

/-- The dict lookup `weekday_map[raw]` guarded by `raw in weekday_map`. -/
def weekday_map (raw : String) : Option Nat :=
  List.lookup raw weekday_entries

/-- Model of `normalize_date_for_html(value)` of src/form_utils.py:71-120 (the same
function is inlined at src/autofill.py:206-238).  `today` is the ordinal of
the date `datetime.today()` returns at the call.

* blank input: today's date;
* a weekday name: the nearest such weekday on or after today,
  `today + ((target - today.weekday()) % 7)` days;
* otherwise try `%Y%m%d`, `%Y/%m/%d`, `%Y-%m-%d` in order;
* anything else: log a failure and fall back to today's date. -/
def normalize_date_for_html (value : String) (today : Nat) : String :=
  let raw := pyStrip value
  if raw = "" then strftime_Y_m_d today
  else
    match weekday_map raw with
    | some target =>
        let delta : Nat := (((target : Int) - (pythonWeekday today : Int)) % 7).toNat
        strftime_Y_m_d (today + delta)
    | none =>
        match strptime_Ymd_compact raw with
        | some (y, m, d) => renderDate y m d
        | none =>
            match strptime_Ymd_slash raw with
            | some (y, m, d) => renderDate y m d
            | none =>
                match strptime_Ymd_dash raw with
                | some (y, m, d) => renderDate y m d
                | none => strftime_Y_m_d today

/-! ## `retry_func` (src/form_utils.py:49-68)

The wrapped operation is modelled as `func : Nat → Except ε Unit`, giving the
outcome of its `attempt`-th invocation (attempts are numbered from 1, as in
`range(1, max_retries + 1)`): `.error e` when that invocation raises `e`,
`.ok ()` when it returns.  The trace records the returned value, every
`log_failure` call, and how many times `func` was invoked. -/

/-- One `log_failure` call made by `retry_func`: the per-attempt
`リトライ {attempt}/{max_retries}: {e}` line or the final
`最大リトライ回数({max_retries})に達しました` line. -/
inductive RetryLogEntry (ε : Type) where
  | retryFailure (attempt : Nat) (max_retries : Int) (e : ε)
  | maxReached (max_retries : Int)
deriving DecidableEq

/-- What `retry_func` hands back to its caller: the Python return value
`True`, a re-raised exception, or the implicit `None` fall-through. -/
inductive RetryResult (ε : Type) where
  | returnedTrue
  | raised (e : ε)
  | returnedNone
deriving DecidableEq

/-- Full observable behaviour of one `retry_func` call. -/
structure RetryTrace (ε : Type) where
  result : RetryResult ε
  log : List (RetryLogEntry ε)
  calls : Nat
deriving DecidableEq

/-- The `for attempt in range(1, max_retries + 1)` loop of `retry_func`,
carrying the remaining attempt numbers, `last_exception`, the log so far and
the invocation count. -/
def retryFrom (func : Nat → Except ε Unit) (max_retries : Int) :
    List Nat → Option ε → List (RetryLogEntry ε) → Nat → RetryTrace ε
  | [], last, log, calls =>
      match last with
      | some e => ⟨.raised e, log ++ [.maxReached max_retries], calls⟩
      | none => ⟨.returnedNone, log ++ [.maxReached max_retries], calls⟩
  | attempt :: rest, _last, log, calls =>
      match func attempt with
      | .ok _ => ⟨.returnedTrue, log, calls + 1⟩
      | .error e =>
          retryFrom func max_retries rest (some e)
            (log ++ [.retryFailure attempt max_retries e]) (calls + 1)

/-- Model of `retry_func(func, *args, max_retries=...)` of src/form_utils.py:49-68.
`List.range' 1 max_retries.toNat` is `range(1, max_retries + 1)`. -/
def retry_func (func : Nat → Except ε Unit) (max_retries : Int) : RetryTrace ε :=
  retryFrom func max_retries (List.range' 1 max_retries.toNat) none [] 0

/-! ## `_run_impl` session-loss recovery (src/autofill.py:60-396) -/

/-- Constant `MAX_LOST_BROWSER_RETRIES` of src/autofill.py:22. -/
def MAX_LOST_BROWSER_RETRIES : Nat := 3

/-- The `lost_browser_keywords` list of src/autofill.py:349-357. -/
def lost_browser_keywords : List String :=
  ["no such window",
   "web view not found",
   "Connection aborted.",
   "Max retries exceeded with url",
   "Failed to establish a new connection",
   "Connection refused",
   "ERR_CONNECTION_REFUSED"]

/-- Whether `small` occurs at the start of `big` (one step of Python's
substring test). -/
def charsStartWith : List Char → List Char → Bool
  | [], _ => true
  | _ :: _, [] => false
  | a :: as, b :: bs => a == b && charsStartWith as bs

/-- Python's `needle in haystack` substring test on strings. -/
def substringIn (needle : List Char) : List Char → Bool
  | [] => needle.isEmpty
  | c :: rest => charsStartWith needle (c :: rest) || substringIn needle rest

/-- Model of `any(keyword in message for keyword in lost_browser_keywords)`
of src/autofill.py:359. -/
def is_lost_browser_message (message : String) : Bool :=
  lost_browser_keywords.any fun k => substringIn k.data message.data

/-- Outcome of one complete fill pass of `_run_impl` (everything up to the
`except` at src/autofill.py:345): the pass reaches `sys.exit(0)`, calls
`sys.exit(1)` itself (e.g. a launch failure), or raises an exception whose
`str(e)` is `message`. -/
inductive PassOutcome where
  | success
  | exit1
  | raiseExc (message : String)
deriving DecidableEq

/-- Final status of the task: `sys.exit(0)` or `sys.exit(1)`. -/
inductive RunResult where
  | exitSuccess
  | exitFailure
deriving DecidableEq

/-- The recovery skeleton of `_run_impl(config, retry_count)`
(src/autofill.py:60, 345-396).  `passes rc` is the outcome of the fill pass
performed by the invocation with `retry_count = rc`.  A raised error whose
message matches a lost-browser keyword leads, unless
`retry_count + 1 >= MAX_LOST_BROWSER_RETRIES`, to the recursive call
`_run_impl(config, retry_count + 1)`; any other error exits with failure.
The second component counts the fill passes performed. -/
def run_impl (passes : Nat → PassOutcome) (retry_count : Nat) : RunResult × Nat :=
  match passes retry_count with
  | .success => (.exitSuccess, 1)
  | .exit1 => (.exitFailure, 1)
  | .raiseExc message =>
      if is_lost_browser_message message then
        if retry_count + 1 ≥ MAX_LOST_BROWSER_RETRIES then (.exitFailure, 1)
        else
          let rest := run_impl passes (retry_count + 1)
          (rest.1, rest.2 + 1)
      else (.exitFailure, 1)
termination_by MAX_LOST_BROWSER_RETRIES - retry_count
decreasing_by simp only [MAX_LOST_BROWSER_RETRIES] at *; omega

/-! ## `check_multiple_checkboxes_by_labels` (src/form_utils.py:273-298) -/

/-- One `role='checkbox'` control of the multi-select group: its effective
label (`aria-label` or text) and its `aria-checked == "true"` state. -/
structure FormCheckbox where
  label : String
  checked : Bool
deriving DecidableEq

/-- One `checkbox.click()` interaction, recording which control was clicked
and the checked state the click drives it to. -/
structure CheckboxClick where
  label : String
  newChecked : Bool
deriving DecidableEq

/-- The body of the `for checkbox in checkbox_labels` loop
(src/form_utils.py:284-295): click a wanted-but-unchecked box on, click a
checked-but-unwanted box off, touch nothing else. -/
def clicksForCheckbox (target_labels : List String) (cb : FormCheckbox) :
    List CheckboxClick :=
  if target_labels.contains cb.label && !cb.checked then [⟨cb.label, true⟩]
  else if target_labels.contains cb.label && cb.checked then []
  else if !(target_labels.contains cb.label) && cb.checked then [⟨cb.label, false⟩]
  else []

/-- Model of `check_multiple_checkboxes_by_labels(driver, wait, label_text,
target_labels)` restricted to its click interactions: the loop walks the
group's checkboxes in document order. -/
def check_multiple_checkboxes_by_labels (target_labels : List String) :
    List FormCheckbox → List CheckboxClick
  | [] => []
  | cb :: rest =>
      clicksForCheckbox target_labels cb ++
        check_multiple_checkboxes_by_labels target_labels rest

/-! ## The reply-email checkbox (src/form_utils.py:125-152 and
src/autofill.py:163-196)

The checkbox on the page is `some checked` when the control is present with
`aria-checked` state `checked`, and `none` when absent (the element wait
raises). -/

/-- How `ensure_reply_email_checkbox_on` ended. -/
inductive EnsureOutcome where
  | turnedOn
  | alreadyOn
  | skippedAbsent
deriving DecidableEq

/-- Model of `ensure_reply_email_checkbox_on(driver, wait)` of
src/form_utils.py:125-152: an absent control is logged and skipped; a present
control is clicked exactly when `aria-checked != "true"`.  Returns the
outcome and the resulting checkbox state. -/
def ensure_reply_email_checkbox_on (page : Option Bool) :
    EnsureOutcome × Option Bool :=
  match page with
  | none => (.skippedAbsent, none)
  | some checked =>
      if checked then (.alreadyOn, some true) else (.turnedOn, some true)

/-- A click on the real checkbox toggles its `aria-checked` state. -/
def click_toggle (st : Bool) : Bool := !st

/-- The `for _ in range(2)` drive loop of src/autofill.py:177-184: break as
soon as the state reads `"true"`, otherwise click and re-check. -/
def drive_on_loop : Nat → Bool → Bool
  | 0, st => st
  | n + 1, st => if st then st else drive_on_loop n (click_toggle st)

/-- How the reply-email block of `_run_impl` ends for the rest of the run. -/
inductive ReplyEmailStep where
  | completed (page : Option Bool)
  | raisedNotFound
deriving DecidableEq

/-- The reply-email block of `_run_impl` (src/autofill.py:163-196): the
element wait happens unconditionally, so an absent control raises out of the
block; a present control is driven on by `drive_on_loop` only when
`config.get("record_the_email_address_to_reply")` is truthy, and is left
untouched otherwise. -/
def reply_email_caller_step (record_flag : Bool) (page : Option Bool) :
    ReplyEmailStep :=
  match page with
  | none => .raisedNotFound
  | some checked =>
      if record_flag then .completed (some (drive_on_loop 2 checked))
      else .completed (some checked)

/-! ## Start/end date defaults (src/autofill.py:240-250) -/

/-- The slice of `config.json` the date-default logic consumes;
`none` models an absent key (`config.get(key, "")`). -/
structure EventConfig where
  start_date : Option String
  end_date : Option String

/-- Lines 243-250 of src/autofill.py: normalize the start date; a blank
end-date input reuses the normalized start date instead of being normalized
itself. -/
def computeEventDates (config : EventConfig) (today : Nat) : String × String :=
  let start_raw := config.start_date.getD ""
  let end_raw := config.end_date.getD ""
  let start_date := normalize_date_for_html start_raw today
  let end_date :=
    if pyStrip end_raw ≠ "" then normalize_date_for_html end_raw today
    else start_date
  (start_date, end_date)

/-- An input the date normalizer resolves as an explicit calendar date
(neither blank nor a weekday name, and one of the three formats parses). -/
def parses_as_explicit_date (value : String) : Bool :=
  let raw := pyStrip value
  !(raw == "") && (weekday_map raw).isNone &&
    ((strptime_Ymd_compact raw).isSome || (strptime_Ymd_slash raw).isSome ||
      (strptime_Ymd_dash raw).isSome)

/-! ## Auxiliary lemmas -/

/-- Unfolding `List.range'` one step. -/
lemma range'_cons (a n : Nat) : List.range' a (n + 1) = a :: List.range' (a + 1) n := rfl

/-- Unfolding `retryFrom` on an empty attempt list with no stored error. -/
lemma retryFrom_nil_none (func : Nat → Except ε Unit) (max_retries : Int)
    (log : List (RetryLogEntry ε)) (calls : Nat) :
    retryFrom func max_retries [] none log calls =
      ⟨.returnedNone, log ++ [.maxReached max_retries], calls⟩ := rfl

/-- Unfolding `retryFrom` on an empty attempt list with a stored error. -/
lemma retryFrom_nil_some (func : Nat → Except ε Unit) (max_retries : Int) (e0 : ε)
    (log : List (RetryLogEntry ε)) (calls : Nat) :
    retryFrom func max_retries [] (some e0) log calls =
      ⟨.raised e0, log ++ [.maxReached max_retries], calls⟩ := rfl

/-- Unfolding `retryFrom` on a succeeding attempt. -/
lemma retryFrom_cons_ok (func : Nat → Except ε Unit) (max_retries : Int)
    (attempt : Nat) (rest : List Nat) (last : Option ε)
    (log : List (RetryLogEntry ε)) (calls : Nat) (h : func attempt = .ok ()) :
    retryFrom func max_retries (attempt :: rest) last log calls =
      ⟨.returnedTrue, log, calls + 1⟩ := by
  rw [retryFrom, h]

/-- Unfolding `retryFrom` on a failing attempt. -/
lemma retryFrom_cons_error (func : Nat → Except ε Unit) (max_retries : Int)
    (attempt : Nat) (rest : List Nat) (last : Option ε) (e0 : ε)
    (log : List (RetryLogEntry ε)) (calls : Nat) (h : func attempt = .error e0) :
    retryFrom func max_retries (attempt :: rest) last log calls =
      retryFrom func max_retries rest (some e0)
        (log ++ [.retryFailure attempt max_retries e0]) (calls + 1) := by
  rw [retryFrom, h]

/-- Behaviour of `retryFrom` when the first `j` listed attempts fail and the next one
succeeds. -/
lemma retryFrom_success (func : Nat → Except ε Unit) (max_retries : Int) (e : Nat → ε) :
    ∀ (j a n : Nat) (last : Option ε) (log : List (RetryLogEntry ε)) (calls : Nat),
      j < n →
      (∀ i, a ≤ i → i < a + j → func i = .error (e i)) →
      func (a + j) = .ok () →
      retryFrom func max_retries (List.range' a n) last log calls =
        ⟨.returnedTrue,
         log ++ (List.range' a j).map fun i => .retryFailure i max_retries (e i),
         calls + j + 1⟩ := by
  intro j
  induction j with
  | zero =>
      intro a n last log calls hj _hfail hok
      obtain ⟨n, rfl⟩ : ∃ n', n = n' + 1 := ⟨n - 1, by omega⟩
      rw [show a + 0 = a from rfl] at hok
      rw [range'_cons, retryFrom_cons_ok func max_retries a _ _ _ _ hok]
      simp
  | succ j ih =>
      intro a n last log calls hj hfail hok
      obtain ⟨n, rfl⟩ : ∃ n', n = n' + 1 := ⟨n - 1, by omega⟩
      rw [range'_cons,
          retryFrom_cons_error func max_retries a _ _ _ _ _ (hfail a (by omega) (by omega))]
      rw [ih (a + 1) n _ _ _ (by omega)
            (fun i h1 h2 => hfail i (by omega) (by omega))
            (by rw [show a + 1 + j = a + (j + 1) from by omega]; exact hok)]
      rw [range'_cons]
      simp [List.map_cons]
      omega

/-- Behaviour of `retryFrom` when every listed attempt fails. -/
lemma retryFrom_all_fail (func : Nat → Except ε Unit) (max_retries : Int) (e : Nat → ε) :
    ∀ (n a : Nat) (last : Option ε) (log : List (RetryLogEntry ε)) (calls : Nat),
      1 ≤ n →
      (∀ i, a ≤ i → i < a + n → func i = .error (e i)) →
      retryFrom func max_retries (List.range' a n) last log calls =
        ⟨.raised (e (a + n - 1)),
         (log ++ (List.range' a n).map fun i => .retryFailure i max_retries (e i)) ++
           [.maxReached max_retries],
         calls + n⟩ := by
  intro n
  induction n with
  | zero => intro a last log calls h; omega
  | succ n ih =>
      intro a last log calls _h hfail
      rw [range'_cons,
          retryFrom_cons_error func max_retries a _ _ _ _ _ (hfail a (by omega) (by omega))]
      rcases Nat.eq_zero_or_pos n with rfl | hn
      · rw [show List.range' (a + 1) 0 = [] from rfl, retryFrom_nil_some]
        simp
      · rw [ih (a + 1) _ _ _ hn (fun i h1 h2 => hfail i (by omega) (by omega))]
        have hidx : a + 1 + n - 1 = a + (n + 1) - 1 := by omega
        rw [hidx]
        simp [range'_cons, List.map_cons, RetryTrace.mk.injEq, List.append_assoc]
        omega

/-- A successful association-list lookup comes from an entry whose key tests
equal to the looked-up key. -/
lemma lookup_some_mem {α β : Type} [BEq α] (a : α) (b : β) :
    ∀ l : List (α × β), List.lookup a l = some b →
      ∃ k, (k, b) ∈ l ∧ (a == k) = true := by
  intro l
  induction l with
  | nil => intro h; exact Option.noConfusion h
  | cons p rest ih =>
      intro h
      rw [List.lookup_cons] at h
      by_cases he : (a == p.1) = true
      · rw [he] at h
        injection h with h
        exact ⟨p.1, by simp [← h], he⟩
      · rw [Bool.of_not_eq_true he] at h
        obtain ⟨k, hk, hke⟩ := ih h
        exact ⟨k, List.mem_cons_of_mem _ hk, hke⟩

/-- Lengths of the Japanese weekday names are 2 or 3, so a string of any
other length is not in `weekday_map`. -/
lemma weekday_map_eq_none (s : String) (h2 : s.data.length ≠ 2)
    (h3 : s.data.length ≠ 3) : weekday_map s = none := by
  cases hw : weekday_map s with
  | none => rfl
  | some t =>
      obtain ⟨k, hk, he⟩ := lookup_some_mem s t weekday_entries hw
      have hlen := (by decide :
        ∀ p ∈ weekday_entries, p.1.data.length = 2 ∨ p.1.data.length = 3) _ hk
      have heq : s = k := by simpa using he
      rw [← heq] at hlen
      rcases hlen with hl | hl
      · exact absurd hl h2
      · exact absurd hl h3

/-- Every weekday number stored in `weekday_map` is below 7. -/
lemma weekday_map_lt_seven (s : String) (t : Nat) (h : weekday_map s = some t) :
    t < 7 := by
  obtain ⟨k, hk, _⟩ := lookup_some_mem s t weekday_entries h
  exact (by decide : ∀ p ∈ weekday_entries, p.2 < 7) _ hk

/-- The function `digitChar` only depends on the argument mod 10. -/
lemma digitChar_mod (k : Nat) : digitChar k = digitChar (k % 10) := by
  unfold digitChar
  congr 1
  omega

/-- The function `digitChar` always yields an ASCII digit. -/
lemma isDigit_digitChar (k : Nat) : (digitChar k).isDigit = true := by
  rw [digitChar_mod]
  exact (by decide : ∀ j, j < 10 → (digitChar j).isDigit = true) _
    (Nat.mod_lt _ (by omega))

/-- The function `digitVal` inverts `digitChar` modulo 10. -/
lemma digitVal_digitChar (k : Nat) : digitVal (digitChar k) = k % 10 := by
  rw [digitChar_mod]
  exact (by decide : ∀ j, j < 10 → digitVal (digitChar j) = j) _
    (Nat.mod_lt _ (by omega))

/-- Digit characters are not whitespace. -/
lemma isPySpace_digitChar (k : Nat) : isPySpace (digitChar k) = false := by
  rw [digitChar_mod]
  exact (by decide : ∀ j, j < 10 → isPySpace (digitChar j) = false) _
    (Nat.mod_lt _ (by omega))

/-- The function `dropWhile` is the identity on a list with no matching element. -/
lemma dropWhile_eq_self_of_forall (p : Char → Bool) :
    ∀ l : List Char, (∀ c ∈ l, p c = false) → l.dropWhile p = l := by
  intro l h
  induction l with
  | nil => rfl
  | cons c t _ih =>
      rw [List.dropWhile_cons, h c (by simp)]
      simp

/-- Python `strip` is the identity on a string with no whitespace. -/
lemma pyStrip_eq_self (s : String) (h : ∀ c ∈ s.data, isPySpace c = false) :
    pyStrip s = s := by
  unfold pyStrip
  rw [dropWhile_eq_self_of_forall _ _ h,
      dropWhile_eq_self_of_forall _ _ (by intro c hc; exact h c (List.mem_reverse.mp hc)),
      List.reverse_reverse]

/-- No rendering of a date contains whitespace, so `strip` leaves all three
untouched. -/
lemma pyStrip_renderCompact (y m d : Nat) :
    pyStrip (renderCompact y m d) = renderCompact y m d := by
  apply pyStrip_eq_self
  intro c hc
  simp only [renderCompact, pad4, pad2, List.mem_append, List.mem_cons,
    List.not_mem_nil, or_false, or_assoc] at hc
  rcases hc with rfl | rfl | rfl | rfl | rfl | rfl | rfl | rfl <;>
    exact isPySpace_digitChar _

/-- Python `strip` leaves the slash rendering untouched. -/
lemma pyStrip_renderSlash (y m d : Nat) :
    pyStrip (renderSlash y m d) = renderSlash y m d := by
  apply pyStrip_eq_self
  intro c hc
  simp only [renderSlash, pad4, pad2, List.mem_append, List.mem_cons,
    List.not_mem_nil, or_false, or_assoc] at hc
  rcases hc with rfl | rfl | rfl | rfl | rfl | rfl | rfl | rfl | rfl | rfl <;>
    first
      | exact isPySpace_digitChar _
      | decide

/-- Python `strip` leaves the dash rendering untouched. -/
lemma pyStrip_renderDate (y m d : Nat) :
    pyStrip (renderDate y m d) = renderDate y m d := by
  apply pyStrip_eq_self
  intro c hc
  simp only [renderDate, pad4, pad2, List.mem_append, List.mem_cons,
    List.not_mem_nil, or_false, or_assoc] at hc
  rcases hc with rfl | rfl | rfl | rfl | rfl | rfl | rfl | rfl | rfl | rfl <;>
    first
      | exact isPySpace_digitChar _
      | decide

/-- The compact rendering is a non-empty string. -/
lemma renderCompact_ne_empty (y m d : Nat) : renderCompact y m d ≠ "" := by
  intro h
  have := congrArg (fun s => s.data.length) h
  simp [renderCompact, pad4, pad2] at this

/-- The slash rendering is a non-empty string. -/
lemma renderSlash_ne_empty (y m d : Nat) : renderSlash y m d ≠ "" := by
  intro h
  have := congrArg (fun s => s.data.length) h
  simp [renderSlash, pad4, pad2] at this

/-- The dash rendering is a non-empty string. -/
lemma renderDate_ne_empty (y m d : Nat) : renderDate y m d ≠ "" := by
  intro h
  have := congrArg (fun s => s.data.length) h
  simp [renderDate, pad4, pad2] at this

/-- The renderings are eight and ten characters long, so none is a weekday
name. -/
lemma weekday_map_renderCompact (y m d : Nat) :
    weekday_map (renderCompact y m d) = none :=
  weekday_map_eq_none _ (by simp [renderCompact, pad4, pad2])
    (by simp [renderCompact, pad4, pad2])

/-- The slash rendering is not a weekday name. -/
lemma weekday_map_renderSlash (y m d : Nat) :
    weekday_map (renderSlash y m d) = none :=
  weekday_map_eq_none _ (by simp [renderSlash, pad4, pad2])
    (by simp [renderSlash, pad4, pad2])

/-- The dash rendering is not a weekday name. -/
lemma weekday_map_renderDate (y m d : Nat) :
    weekday_map (renderDate y m d) = none :=
  weekday_map_eq_none _ (by simp [renderDate, pad4, pad2])
    (by simp [renderDate, pad4, pad2])

/-- Every month of `days_in_month` has at most 31 days. -/
lemma days_in_month_le (y m : Nat) : days_in_month y m ≤ 31 := by
  unfold days_in_month
  split_ifs <;> omega

/-- Format `%Y%m%d` parsing inverts the compact rendering of a valid date. -/
lemma strptime_compact_renderCompact (y m d : Nat) (hy1 : 1 ≤ y) (hy2 : y ≤ 9999)
    (hv : validDate y m d) :
    strptime_Ymd_compact (renderCompact y m d) = some (y, m, d) := by
  obtain ⟨hm1, hm2, hd1, hd2⟩ := hv
  have hd31 : d ≤ 31 := le_trans hd2 (days_in_month_le y m)
  simp only [strptime_Ymd_compact, renderCompact, pad4, pad2, List.cons_append,
    List.nil_append, isDigit_digitChar, Bool.and_self, if_true, digitVal_digitChar]
  have ha : y / 1000 % 10 * 1000 + y / 100 % 10 * 100 + y / 10 % 10 * 10 + y % 10 = y := by
    omega
  have hb : m / 10 % 10 * 10 + m % 10 = m := by omega
  have hc : d / 10 % 10 * 10 + d % 10 = d := by omega
  rw [ha, hb, hc]
  unfold mkValidDate
  rw [if_pos ⟨hy1, hy2, hm1, hm2, hd1, hd2⟩]

/-- Format `%Y/%m/%d` parsing inverts the slash rendering of a valid date. -/
lemma strptime_slash_renderSlash (y m d : Nat) (hy1 : 1 ≤ y) (hy2 : y ≤ 9999)
    (hv : validDate y m d) :
    strptime_Ymd_slash (renderSlash y m d) = some (y, m, d) := by
  obtain ⟨hm1, hm2, hd1, hd2⟩ := hv
  have hd31 : d ≤ 31 := le_trans hd2 (days_in_month_le y m)
  simp only [strptime_Ymd_slash, renderSlash, pad4, pad2, List.cons_append,
    List.nil_append, isDigit_digitChar, Bool.and_self, beq_self_eq_true,
    Bool.true_and, Bool.and_true, if_true, digitVal_digitChar]
  have ha : y / 1000 % 10 * 1000 + y / 100 % 10 * 100 + y / 10 % 10 * 10 + y % 10 = y := by
    omega
  have hb : m / 10 % 10 * 10 + m % 10 = m := by omega
  have hc : d / 10 % 10 * 10 + d % 10 = d := by omega
  rw [ha, hb, hc]
  unfold mkValidDate
  rw [if_pos ⟨hy1, hy2, hm1, hm2, hd1, hd2⟩]

/-- Format `%Y-%m-%d` parsing inverts the dash rendering of a valid date. -/
lemma strptime_dash_renderDate (y m d : Nat) (hy1 : 1 ≤ y) (hy2 : y ≤ 9999)
    (hv : validDate y m d) :
    strptime_Ymd_dash (renderDate y m d) = some (y, m, d) := by
  obtain ⟨hm1, hm2, hd1, hd2⟩ := hv
  have hd31 : d ≤ 31 := le_trans hd2 (days_in_month_le y m)
  simp only [strptime_Ymd_dash, renderDate, pad4, pad2, List.cons_append,
    List.nil_append, isDigit_digitChar, Bool.and_self, beq_self_eq_true,
    Bool.true_and, Bool.and_true, if_true, digitVal_digitChar]
  have ha : y / 1000 % 10 * 1000 + y / 100 % 10 * 100 + y / 10 % 10 * 10 + y % 10 = y := by
    omega
  have hb : m / 10 % 10 * 10 + m % 10 = m := by omega
  have hc : d / 10 % 10 * 10 + d % 10 = d := by omega
  rw [ha, hb, hc]
  unfold mkValidDate
  rw [if_pos ⟨hy1, hy2, hm1, hm2, hd1, hd2⟩]

/-- A ten-character rendering never parses in the eight-character compact
format. -/
lemma strptime_compact_renderSlash (y m d : Nat) :
    strptime_Ymd_compact (renderSlash y m d) = none := by
  simp [strptime_Ymd_compact, renderSlash, pad4, pad2]

/-- The dash rendering never parses in the compact format. -/
lemma strptime_compact_renderDate (y m d : Nat) :
    strptime_Ymd_compact (renderDate y m d) = none := by
  simp [strptime_Ymd_compact, renderDate, pad4, pad2]

/-- The dash rendering never parses in the slash format (the separators
mismatch). -/
lemma strptime_slash_renderDate (y m d : Nat) :
    strptime_Ymd_slash (renderDate y m d) = none := by
  simp [strptime_Ymd_slash, renderDate, pad4, pad2]

/-- Blank input normalizes to today's date. -/
lemma normalize_blank (value : String) (today : Nat) (h : pyStrip value = "") :
    normalize_date_for_html value today = strftime_Y_m_d today := by
  simp [normalize_date_for_html, h]

example : retry_func (fun i => if i ≤ 2 then Except.error i else Except.ok ()) 3 =
    ⟨.returnedTrue, [.retryFailure 1 3 1, .retryFailure 2 3 2], 3⟩ := by decide
example : civil_from_ordinal 738946 = (2024, 3, 1) := by decide
example : civil_from_ordinal 738951 = (2024, 3, 6) := by decide
example : pythonWeekday 738951 = 2 := by decide
example : normalize_date_for_html "月曜" 738951 = "2024-03-11" := by decide
example : normalize_date_for_html "" 738946 = "2024-03-01" := by decide
example : normalize_date_for_html "20240301" 0 = "2024-03-01" := by decide
example : normalize_date_for_html "2024/03/01" 0 = "2024-03-01" := by decide
example : normalize_date_for_html "2024-03-01" 0 = "2024-03-01" := by decide
example : normalize_date_for_html "20240230" 738946 = "2024-03-01" := by decide
example : normalize_date_for_html " 月曜 " 738951 = "2024-03-11" := by decide

/-! ## The claims -/

/-- C1: for every weekday-name input `W` (any input whose stripped form is a
Japanese weekday name with target number `target`) and every reference date
`today`, `normalize_date_for_html` returns the date
`today + ((target - today.weekday()) % 7)`, which is the next date on or
after `today` whose weekday is `target`: it lies within `[today, today + 6]`,
its weekday is `target`, no earlier date on or after `today` has that
weekday, and when `today` itself has weekday `target` the offset is 0. -/
theorem C1_weekday_normalization (value : String) (target today : Nat)
    (h : weekday_map (pyStrip value) = some target) :
    ∃ delta : Nat,
      normalize_date_for_html value today = strftime_Y_m_d (today + delta)
      ∧ delta ≤ 6
      ∧ pythonWeekday (today + delta) = target
      ∧ (pythonWeekday today = target → delta = 0)
      ∧ ∀ n, today ≤ n → n < today + delta → pythonWeekday n ≠ target := by
  have ht : target < 7 := weekday_map_lt_seven _ _ h
  have hne : ¬ pyStrip value = "" := by
    intro hh
    rw [hh, show weekday_map "" = none from by decide] at h
    exact Option.noConfusion h
  refine ⟨(((target : Int) - (pythonWeekday today : Int)) % 7).toNat, ?_, ?_, ?_, ?_, ?_⟩
  · simp only [normalize_date_for_html, hne, if_false, h]
  · simp only [pythonWeekday]
    omega
  · simp only [pythonWeekday]
    omega
  · simp only [pythonWeekday]
    omega
  · intro n h1 h2
    simp only [pythonWeekday] at h2 ⊢
    omega

/-- C1 witness: the spec's end-to-end scenario.  `738951` is the ordinal of
2024-03-06 (a Wednesday); normalizing `"月曜"` (Monday) yields 2024-03-11,
the next Monday. -/
theorem C1_weekday_normalization_witness :
    (∃ delta : Nat,
      normalize_date_for_html "月曜" 738951 = strftime_Y_m_d (738951 + delta)
      ∧ delta ≤ 6
      ∧ pythonWeekday (738951 + delta) = 0
      ∧ (pythonWeekday 738951 = 0 → delta = 0)
      ∧ ∀ n, 738951 ≤ n → n < 738951 + delta → pythonWeekday n ≠ 0)
    ∧ normalize_date_for_html "月曜" 738951 = "2024-03-11" :=
  ⟨C1_weekday_normalization "月曜" 0 738951 (by decide), by decide⟩

/-- C2: for every operation and every `max_retries ≥ 1`, `retry_func`
(a) returns `True` after exactly `k + 1` invocations, logging each of the
`k < max_retries` failed attempts, when the operation fails exactly `k`
times and then succeeds; and (b) when the operation fails on every attempt,
invokes it exactly `max_retries` times, logs each failure and a final
max-retries message, and re-raises the error raised by the last attempt
unchanged. -/
theorem C2_retry_executor (ε : Type) (func : Nat → Except ε Unit)
    (max_retries : Int) (e : Nat → ε) (hmax : 1 ≤ max_retries) :
    (∀ k : Nat, (k : Int) < max_retries →
      (∀ i, 1 ≤ i → i ≤ k → func i = .error (e i)) →
      func (k + 1) = .ok () →
      retry_func func max_retries =
        ⟨.returnedTrue,
         (List.range' 1 k).map fun i => .retryFailure i max_retries (e i),
         k + 1⟩)
    ∧ ((∀ i : Nat, 1 ≤ i → (i : Int) ≤ max_retries → func i = .error (e i)) →
      retry_func func max_retries =
        ⟨.raised (e max_retries.toNat),
         ((List.range' 1 max_retries.toNat).map fun i =>
            .retryFailure i max_retries (e i)) ++ [.maxReached max_retries],
         max_retries.toNat⟩) := by
  constructor
  · intro k hk hfail hok
    unfold retry_func
    rw [retryFrom_success func max_retries e k 1 max_retries.toNat none [] 0
          (by omega)
          (fun i h1 h2 => hfail i h1 (by omega))
          (by rw [show 1 + k = k + 1 from by omega]; exact hok)]
    simp
  · intro hfail
    unfold retry_func
    rw [retryFrom_all_fail func max_retries e max_retries.toNat 1 none [] 0
          (by omega)
          (fun i h1 h2 => hfail i h1 (by omega))]
    have h1n : 1 + max_retries.toNat - 1 = max_retries.toNat := by omega
    rw [h1n]
    simp

/-- C2 witness: with `max_retries = 3`, an operation failing on attempts 1
and 2 and succeeding on attempt 3 yields `True` with both failures logged
after 3 invocations; an always-failing operation re-raises the error of
attempt 3 after 3 invocations. -/
theorem C2_retry_executor_witness :
    retry_func (fun i => if i ≤ 2 then Except.error i else Except.ok ()) 3 =
      ⟨.returnedTrue, [.retryFailure 1 3 1, .retryFailure 2 3 2], 3⟩
    ∧ retry_func (fun i => (Except.error i : Except Nat Unit)) 3 =
      ⟨.raised 3,
       [.retryFailure 1 3 1, .retryFailure 2 3 2, .retryFailure 3 3 3,
        .maxReached 3], 3⟩ :=
  ⟨(C2_retry_executor Nat _ 3 id (by decide)).1 2 (by decide)
      (fun i _h1 h2 => by rw [if_pos h2]; rfl)
      rfl,
   (C2_retry_executor Nat _ 3 id (by decide)).2
      (fun i _h1 _h2 => rfl)⟩

/-- Unfolding `run_impl` on a successful pass. -/
lemma run_impl_success (passes : Nat → PassOutcome) (rc : Nat)
    (h : passes rc = .success) : run_impl passes rc = (.exitSuccess, 1) := by
  rw [run_impl, h]

/-- Unfolding `run_impl` on a pass that exits with failure itself. -/
lemma run_impl_exit1 (passes : Nat → PassOutcome) (rc : Nat)
    (h : passes rc = .exit1) : run_impl passes rc = (.exitFailure, 1) := by
  rw [run_impl, h]

/-- Unfolding `run_impl` on an error outside the session-loss signatures. -/
lemma run_impl_raise_not_lost (passes : Nat → PassOutcome) (rc : Nat) (msg : String)
    (h : passes rc = .raiseExc msg) (hl : is_lost_browser_message msg = false) :
    run_impl passes rc = (.exitFailure, 1) := by
  rw [run_impl, h]
  simp [hl]

/-- Unfolding `run_impl` on a session-loss error at the recovery ceiling. -/
lemma run_impl_raise_lost_max (passes : Nat → PassOutcome) (rc : Nat) (msg : String)
    (h : passes rc = .raiseExc msg) (hl : is_lost_browser_message msg = true)
    (hb : rc + 1 ≥ MAX_LOST_BROWSER_RETRIES) :
    run_impl passes rc = (.exitFailure, 1) := by
  rw [run_impl, h]
  simp [hl, hb]

/-- Unfolding `run_impl` on a session-loss error below the recovery
ceiling: the whole task is re-run with `retry_count + 1`. -/
lemma run_impl_raise_lost_rec (passes : Nat → PassOutcome) (rc : Nat) (msg : String)
    (h : passes rc = .raiseExc msg) (hl : is_lost_browser_message msg = true)
    (hb : ¬ rc + 1 ≥ MAX_LOST_BROWSER_RETRIES) :
    run_impl passes rc =
      ((run_impl passes (rc + 1)).1, (run_impl passes (rc + 1)).2 + 1) := by
  rw [run_impl, h]
  simp [hl, hb]

/-- C3: when the fill pass raises a session-loss-signature error at
`retry_count` 0, 1 and 2 (i.e. exactly `MAX_LOST_BROWSER_RETRIES = 3`
consecutive times), the task aborts with failure after exactly 3 passes —
no fourth pass is started, whatever its outcome would have been (the bound
is strict). -/
theorem C3_strict_recovery_bound (passes : Nat → PassOutcome) (m0 m1 m2 : String)
    (h0 : passes 0 = .raiseExc m0) (hl0 : is_lost_browser_message m0 = true)
    (h1 : passes 1 = .raiseExc m1) (hl1 : is_lost_browser_message m1 = true)
    (h2 : passes 2 = .raiseExc m2) (hl2 : is_lost_browser_message m2 = true) :
    run_impl passes 0 = (.exitFailure, 3) := by
  have e2 : run_impl passes 2 = (.exitFailure, 1) := by
    rw [run_impl, h2]
    simp [hl2, MAX_LOST_BROWSER_RETRIES]
  have e1 : run_impl passes 1 = (.exitFailure, 2) := by
    rw [run_impl, h1]
    simp [hl1, MAX_LOST_BROWSER_RETRIES, e2]
  rw [run_impl, h0]
  simp [hl0, MAX_LOST_BROWSER_RETRIES, e1]

/-- C3 witness: a task that loses the session on its first three passes and
would succeed on a fourth never gets the fourth pass: the run exits with
failure after exactly 3 passes. -/
theorem C3_strict_recovery_bound_witness :
    run_impl (fun i => if i < 3 then .raiseExc "no such window" else .success) 0 =
      (.exitFailure, 3) :=
  C3_strict_recovery_bound _ _ _ _ rfl (by decide) rfl (by decide) rfl (by decide)

/-- C4: for every configuration whose end-date input is blank (absent, empty
or whitespace), the end date written to the form is the already-normalized
start date; and when the start-date input is also blank, both dates are
today's date (so start = end in particular). -/
theorem C4_blank_date_defaults (config : EventConfig) (today : Nat)
    (hend : pyStrip (config.end_date.getD "") = "") :
    (computeEventDates config today).2 = (computeEventDates config today).1
    ∧ (pyStrip (config.start_date.getD "") = "" →
        computeEventDates config today = (strftime_Y_m_d today, strftime_Y_m_d today)) := by
  constructor
  · simp [computeEventDates, hend]
  · intro hstart
    simp [computeEventDates, hend, normalize_blank _ _ hstart]

/-- C4 witness: the spec's scenario — both date inputs absent and today =
2024-03-01 (ordinal 738946) make both dates `2024-03-01`, so start ≤ end. -/
theorem C4_blank_date_defaults_witness :
    ((computeEventDates ⟨none, none⟩ 738946).2 = (computeEventDates ⟨none, none⟩ 738946).1
      ∧ (pyStrip ((⟨none, none⟩ : EventConfig).start_date.getD "") = "" →
          computeEventDates ⟨none, none⟩ 738946 =
            (strftime_Y_m_d 738946, strftime_Y_m_d 738946)))
    ∧ computeEventDates ⟨none, none⟩ 738946 = ("2024-03-01", "2024-03-01") :=
  ⟨C4_blank_date_defaults ⟨none, none⟩ 738946 (by decide), by decide⟩

/-- C5: checkbox-group reconciliation.  In the concrete scenario with current
checked set `{A, C}` and target set `{B, C}` exactly two clicks happen —
A off and B on — and C is untouched; in general the clicks are exactly one
per checkbox whose checked state differs from its membership in the target
set, each driving that checkbox to its target membership. -/
theorem C5_checkbox_reconciliation :
    check_multiple_checkboxes_by_labels ["B", "C"]
        [⟨"A", true⟩, ⟨"B", false⟩, ⟨"C", true⟩] = [⟨"A", false⟩, ⟨"B", true⟩]
    ∧ ∀ (target_labels : List String) (checkboxes : List FormCheckbox),
        check_multiple_checkboxes_by_labels target_labels checkboxes =
          (checkboxes.filter fun cb =>
              target_labels.contains cb.label != cb.checked).map
            fun cb => ⟨cb.label, target_labels.contains cb.label⟩ := by
  constructor
  · decide
  · intro target_labels checkboxes
    induction checkboxes with
    | nil => rfl
    | cons cb rest ih =>
        rw [check_multiple_checkboxes_by_labels, ih, List.filter_cons]
        by_cases hmem : cb.label ∈ target_labels <;> cases hch : cb.checked <;>
          simp [clicksForCheckbox, hmem, hch]

/-- C6: the three accepted renderings of one valid calendar date all
normalize to the same canonical `YYYY-MM-DD` string, for every reference
date `today`. -/
theorem C6_format_equivalence (y m d today : Nat) (hy1 : 1 ≤ y) (hy2 : y ≤ 9999)
    (hv : validDate y m d) :
    normalize_date_for_html (renderCompact y m d) today = renderDate y m d
    ∧ normalize_date_for_html (renderSlash y m d) today = renderDate y m d
    ∧ normalize_date_for_html (renderDate y m d) today = renderDate y m d := by
  refine ⟨?_, ?_, ?_⟩
  · rw [normalize_date_for_html]
    rw [pyStrip_renderCompact, if_neg (renderCompact_ne_empty y m d),
        weekday_map_renderCompact, strptime_compact_renderCompact y m d hy1 hy2 hv]
  · rw [normalize_date_for_html]
    rw [pyStrip_renderSlash, if_neg (renderSlash_ne_empty y m d),
        weekday_map_renderSlash, strptime_compact_renderSlash,
        strptime_slash_renderSlash y m d hy1 hy2 hv]
  · rw [normalize_date_for_html]
    rw [pyStrip_renderDate, if_neg (renderDate_ne_empty y m d),
        weekday_map_renderDate, strptime_compact_renderDate,
        strptime_slash_renderDate, strptime_dash_renderDate y m d hy1 hy2 hv]

/-- C6 witness: `"20240301"`, `"2024/03/01"` and `"2024-03-01"` all normalize
to `"2024-03-01"` (today taken as ordinal 0; the parse path never reads it). -/
theorem C6_format_equivalence_witness :
    normalize_date_for_html (renderCompact 2024 3 1) 0 = renderDate 2024 3 1
    ∧ normalize_date_for_html (renderSlash 2024 3 1) 0 = renderDate 2024 3 1
    ∧ normalize_date_for_html (renderDate 2024 3 1) 0 = renderDate 2024 3 1 :=
  C6_format_equivalence 2024 3 1 0 (by decide) (by decide) (by decide)

/-- C7 counterexample: the code reads `datetime.today()` itself — with the
clock reading modelled as the explicit `today` argument, the blank input
normalizes to different results on two different wall-clock dates
(2024-03-01 vs 2024-03-06), so the output does depend on the wall clock the
function reads internally, refuting "does not read the wall clock itself". -/
theorem C7_reads_clock_counterexample :
    normalize_date_for_html "" 738946 ≠ normalize_date_for_html "" 738951 := by
  decide

/-- C7 as amended: normalization is a pure, deterministic function of the
input string and the date read from the wall clock at the call (here the
explicit `today`), and any input that parses as an explicit calendar date is
normalized without consulting the clock at all; but the clock is read by the
function itself (`datetime.today()`) rather than injected by the caller. -/
theorem C7_deterministic_given_clock (value : String) (t1 t2 : Nat)
    (h : parses_as_explicit_date value = true) :
    normalize_date_for_html value t1 = normalize_date_for_html value t2 := by
  unfold parses_as_explicit_date at h
  simp only [Bool.and_eq_true, Bool.or_eq_true, Bool.not_eq_true',
    beq_iff_eq, Option.isNone_iff_eq_none, Option.isSome_iff_exists] at h
  obtain ⟨⟨hne, hwd⟩, hparse⟩ := h
  have hne' : ¬ pyStrip value = "" := by simpa using hne
  rw [normalize_date_for_html, normalize_date_for_html, if_neg hne', if_neg hne', hwd]
  cases hc : strptime_Ymd_compact (pyStrip value) with
  | some v => rfl
  | none =>
      cases hs : strptime_Ymd_slash (pyStrip value) with
      | some v => rfl
      | none =>
          cases hd : strptime_Ymd_dash (pyStrip value) with
          | some v => rfl
          | none =>
              rcases hparse with ⟨v, hv⟩ | ⟨v, hv⟩ | ⟨v, hv⟩ <;>
                simp_all

/-- C7 witness: the explicit date `"2024-03-01"` normalizes identically under
two different clock dates. -/
theorem C7_deterministic_given_clock_witness :
    normalize_date_for_html "2024-03-01" 0 = normalize_date_for_html "2024-03-01" 5 :=
  C7_deterministic_given_clock "2024-03-01" 0 5 (by decide)

/-- C8 counterexample: in the fill run, the reply-email checkbox is driven
only when `record_the_email_address_to_reply` is truthy (with the flag off
and the box unchecked, it stays unchecked), and the element lookup is
unconditional, so an absent control raises out of the block instead of
being logged and skipped. -/
theorem C8_reply_email_counterexample :
    reply_email_caller_step false (some false) ≠ .completed (some true)
    ∧ reply_email_caller_step true none = .raisedNotFound := by
  decide

/-- C8 as amended: the helper `ensure_reply_email_checkbox_on` drives the
checkbox to ON idempotently regardless of prior state and tolerates an
absent control by logging and returning; the fill run, however, performs the
drive only when the config flag `record_the_email_address_to_reply` is set,
leaves the checkbox untouched otherwise, and raises (failing the run) when
the control is absent. -/
theorem C8_reply_email_amended (flag checked : Bool) :
    ensure_reply_email_checkbox_on none = (.skippedAbsent, none)
    ∧ (ensure_reply_email_checkbox_on (some checked)).2 = some true
    ∧ reply_email_caller_step true (some checked) = .completed (some true)
    ∧ reply_email_caller_step false (some checked) = .completed (some checked)
    ∧ reply_email_caller_step flag none = .raisedNotFound := by
  cases flag <;> cases checked <;> decide

/-- C9: the session-loss recovery recursion always terminates (`run_impl` is
a total function) and performs at most
`max (MAX_LOST_BROWSER_RETRIES - retry_count) 1` fill passes from any
`retry_count`; in particular a task invocation (`retry_count = 0`) performs
at most `MAX_LOST_BROWSER_RETRIES = 3` full fill passes, whatever the remote
session does. -/
theorem C9_recovery_terminates_bounded :
    (∀ (passes : Nat → PassOutcome) (retry_count : Nat),
        (run_impl passes retry_count).2 ≤
          max (MAX_LOST_BROWSER_RETRIES - retry_count) 1)
    ∧ ∀ passes : Nat → PassOutcome,
        (run_impl passes 0).2 ≤ MAX_LOST_BROWSER_RETRIES := by
  have key : ∀ (passes : Nat → PassOutcome) (fuel retry_count : Nat),
      MAX_LOST_BROWSER_RETRIES - retry_count ≤ fuel →
      (run_impl passes retry_count).2 ≤
        max (MAX_LOST_BROWSER_RETRIES - retry_count) 1 := by
    intro passes fuel
    induction fuel with
    | zero =>
        intro rc hrc
        cases hp : passes rc with
        | success => rw [run_impl_success passes rc hp]; simp
        | exit1 => rw [run_impl_exit1 passes rc hp]; simp
        | raiseExc msg =>
            cases hl : is_lost_browser_message msg with
            | true =>
                have hb : rc + 1 ≥ MAX_LOST_BROWSER_RETRIES := by
                  simp only [MAX_LOST_BROWSER_RETRIES] at *
                  omega
                rw [run_impl_raise_lost_max passes rc msg hp hl hb]
                simp
            | false =>
                rw [run_impl_raise_not_lost passes rc msg hp hl]
                simp
    | succ n ih =>
        intro rc hrc
        cases hp : passes rc with
        | success => rw [run_impl_success passes rc hp]; simp
        | exit1 => rw [run_impl_exit1 passes rc hp]; simp
        | raiseExc msg =>
            cases hl : is_lost_browser_message msg with
            | true =>
                by_cases hb : rc + 1 ≥ MAX_LOST_BROWSER_RETRIES
                · rw [run_impl_raise_lost_max passes rc msg hp hl hb]
                  simp
                · rw [run_impl_raise_lost_rec passes rc msg hp hl hb]
                  have hr := ih (rc + 1)
                    (by simp only [MAX_LOST_BROWSER_RETRIES] at *; omega)
                  simp only [MAX_LOST_BROWSER_RETRIES] at *
                  omega
            | false =>
                rw [run_impl_raise_not_lost passes rc msg hp hl]
                simp
  constructor
  · intro passes rc
    exact key passes (MAX_LOST_BROWSER_RETRIES - rc) rc le_rfl
  · intro passes
    have := key passes MAX_LOST_BROWSER_RETRIES 0 (by omega)
    simp only [MAX_LOST_BROWSER_RETRIES] at *
    omega

/-- C10: for every `max_retries ≤ 0`, `retry_func` never invokes the wrapped
operation (0 calls), raises nothing, still logs the max-retries failure
message, and falls through returning `None` — not the `True` it returns on
success. -/
theorem C10_nonpositive_max_retries (ε : Type) (func : Nat → Except ε Unit)
    (max_retries : Int) (h : max_retries ≤ 0) :
    retry_func func max_retries =
      ⟨.returnedNone, [.maxReached max_retries], 0⟩ := by
  unfold retry_func
  have h0 : max_retries.toNat = 0 := by omega
  rw [h0, show List.range' 1 0 = [] from rfl, retryFrom_nil_none]
  simp

/-- C10 witness: `max_retries = 0` on an operation that would succeed —
never called, nothing raised, the max-retries line logged, `None` returned. -/
theorem C10_nonpositive_max_retries_witness :
    retry_func (fun _ => (Except.ok () : Except Nat Unit)) 0 =
      ⟨.returnedNone, [.maxReached 0], 0⟩ :=
  C10_nonpositive_max_retries Nat _ 0 (by decide)
